import Mathlib

/-
Verification of the authentication and authorization subsystem of the
real_estate_project backend: password hashing and JWT utilities
(backend/app/core/security.py, built on passlib bcrypt and python-jose),
the login and registration routes (backend/app/api/auth.py), and the
identity and role dependencies (backend/app/dependencies/auth.py).

Modelling conventions:
- wall-clock time is passed explicitly as an integer number of seconds since
  the epoch (datetime.now in the source);
- exceptions are modelled as explicit error values: functions that can raise
  return Except, and route outcomes distinguish raised HTTPExceptions from
  uncaught Python exceptions;
- the behavior of the third-party libraries passlib and python-jose is
  modelled from their semantics as exercised by the repository, and each such
  point is noted at the corresponding definition.
-/

deriving instance DecidableEq for Except

/-- Configuration fields read by the auth core (backend/app/core/config.py,
class Settings). The values are loaded from the environment at process start,
so every theorem quantifies over them. -/
structure Settings where
  SECRET_KEY : String
  ACCESS_TOKEN_EXPIRE_MINUTES : Int
  JWT_ALGORITHM : String
  JWT_ISSUER : String
  JWT_AUDIENCE : String
  deriving DecidableEq

/-- Claim set of a JWT payload, a flat mapping with optional keys: payload.get
returns None for a missing key. The fields are exactly the keys this
repository reads or writes: sub, role, iat, exp, iss, aud. -/
structure Claims where
  sub : Option String
  role : Option String
  iat : Option Int
  exp : Option Int
  iss : Option String
  aud : Option String
  deriving DecidableEq

/-- Wire-level token as seen by jose.jwt.decode: either a structurally valid
three-segment token whose payload is the given claim set, signed with the
given key under the given algorithm, or a string that fails segment parsing
or signature reconstruction. -/
inductive JoseToken where
  | signed (claims : Claims) (key : String) (alg : String)
  | malformed (raw : String)
  deriving DecidableEq

/-- Exception classes raised by jose.jwt.decode. In the python-jose hierarchy
both ExpiredSignatureError and JWTClaimsError are subclasses of JWTError, so
an except clause for JWTError catches all three constructors below. -/
inductive JoseError where
  | jwt (msg : String)
  | expiredSignature (msg : String)
  | claimsError (msg : String)
  deriving DecidableEq

/-- Issuer validation of python-jose (jose.jwt, _validate_iss): when an issuer
argument is supplied, a missing or different iss claim raises JWTClaimsError. -/
def joseValidateIss (claims : Claims) (issuer : String) : Except JoseError Claims :=
  if claims.iss ≠ some issuer then .error (.claimsError "Invalid issuer")
  else .ok claims

/-- Audience validation of python-jose (jose.jwt, _validate_aud) followed by
issuer validation, in that order: a missing aud claim is skipped; a present
aud claim different from the expected audience raises JWTClaimsError. -/
def joseValidateAudIss (claims : Claims) (audience issuer : String) :
    Except JoseError Claims :=
  match claims.aud with
  | some a =>
    if a ≠ audience then .error (.claimsError "Invalid audience")
    else joseValidateIss claims issuer
  | none => joseValidateIss claims issuer

/-- Behavior of jose.jwt.decode(token, key, algorithms, audience, issuer) at
wall-clock time now, as called by verify_access_token: structure and signature
are checked first (failures raise JWTError), then exp (an exp strictly before
now raises ExpiredSignatureError; a missing exp claim is skipped), then aud,
then iss (both raising JWTClaimsError). The claims are returned only when
every check passes; nothing is returned on any failure. -/
def joseDecode (token : JoseToken) (key : String) (algorithms : List String)
    (audience issuer : String) (now : Int) : Except JoseError Claims :=
  match token with
  | .malformed _ => .error (.jwt "Signature verification failed.")
  | .signed claims sigKey alg =>
    if ¬ (alg ∈ algorithms ∧ sigKey = key) then
      .error (.jwt "Signature verification failed.")
    else
      match claims.exp with
      | some e =>
        if e < now then .error (.expiredSignature "Signature has expired.")
        else joseValidateAudIss claims audience issuer
      | none => joseValidateAudIss claims audience issuer

/-- Model of create_access_token (backend/app/core/security.py lines 87-122).
The parameter now stands for datetime.now(timezone.utc) in seconds since the
epoch; expires_delta is the optional expiry override in minutes, with the
configured ACCESS_TOKEN_EXPIRE_MINUTES as the default. The payload carries
sub, iat, exp, iss and aud and no role key: the function signature has no
role parameter. -/
def create_access_token (S : Settings) (now : Int) (subject : String)
    (expires_delta : Option Int) : JoseToken :=
  let issued_at : Int := now
  let expires_at : Int :=
    match expires_delta with
    | some m => issued_at + m * 60
    | none => issued_at + S.ACCESS_TOKEN_EXPIRE_MINUTES * 60
  .signed
    { sub := some subject, role := none, iat := some issued_at,
      exp := some expires_at, iss := some S.JWT_ISSUER,
      aud := some S.JWT_AUDIENCE }
    S.SECRET_KEY S.JWT_ALGORITHM

/-- Exceptions raised by verify_access_token to its callers: either
ExpiredSignatureError carrying the message Token has expired, or a plain
JWTError carrying the message Token is invalid or corrupted. -/
inductive VerifyError where
  | expired (msg : String)
  | invalid (msg : String)
  deriving DecidableEq

/-- Model of verify_access_token (backend/app/core/security.py lines 137-169):
delegates to jose.jwt.decode with the configured secret, algorithm, audience
and issuer; re-raises ExpiredSignatureError with the message Token has
expired; and re-raises every other JWTError (including the JWTClaimsError
raised for an audience or issuer mismatch) as a plain JWTError with the single
message Token is invalid or corrupted. -/
def verify_access_token (S : Settings) (now : Int) (token : JoseToken) :
    Except VerifyError Claims :=
  match joseDecode token S.SECRET_KEY [S.JWT_ALGORITHM] S.JWT_AUDIENCE
      S.JWT_ISSUER now with
  | .ok c => .ok c
  | .error (.expiredSignature _) => .error (.expired "Token has expired")
  | .error _ => .error (.invalid "Token is invalid or corrupted")

/-- Value of a raised fastapi.HTTPException: status code, detail string, and
response headers. -/
structure HTTPException where
  status_code : Nat
  detail : String
  headers : List (String × String)
  deriving DecidableEq

/-- Model of get_current_user (backend/app/dependencies/auth.py lines 27-72):
decodes the bearer token with verify_access_token inside a try block, maps
ExpiredSignatureError to 401 Token has expired and every other JWTError to
401 Invalid or corrupted token, rejects a decoded payload without a sub claim
with 401 Token missing subject claim, and otherwise returns the sub claim. -/
def get_current_user (S : Settings) (now : Int) (token : JoseToken) :
    Except HTTPException String :=
  match verify_access_token S now token with
  | .error (.expired _) =>
    .error { status_code := 401, detail := "Token has expired",
             headers := [("WWW-Authenticate", "Bearer")] }
  | .error (.invalid _) =>
    .error { status_code := 401, detail := "Invalid or corrupted token",
             headers := [("WWW-Authenticate", "Bearer")] }
  | .ok payload =>
    match payload.sub with
    | none =>
      .error { status_code := 401, detail := "Token missing subject claim",
               headers := [("WWW-Authenticate", "Bearer")] }
    | some userEmail => .ok userEmail

/-- Outcome of require_admin: a returned subject, a raised HTTPException, or
an exception from verify_access_token left uncaught — require_admin wraps its
decode call in no try/except, so JWTError and ExpiredSignatureError escape to
the framework instead of becoming 401 responses. -/
inductive RequireAdminOutcome where
  | ok (sub : String)
  | http (e : HTTPException)
  | uncaught (e : VerifyError)
  deriving DecidableEq

/-- Model of require_admin (backend/app/dependencies/auth.py lines 76-104):
decodes the token with no exception handler, raises 403 Admin privileges
required when the role claim is not the string admin (a payload without a
role claim also takes this branch, since payload.get returns None), then
raises 401 Token missing subject claim when sub is absent, and otherwise
returns sub. -/
def require_admin (S : Settings) (now : Int) (token : JoseToken) :
    RequireAdminOutcome :=
  match verify_access_token S now token with
  | .error e => .uncaught e
  | .ok payload =>
    if payload.role ≠ some "admin" then
      .http { status_code := 403, detail := "Admin privileges required",
              headers := [] }
    else
      match payload.sub with
      | none =>
        .http { status_code := 401, detail := "Token missing subject claim",
                headers := [("WWW-Authenticate", "Bearer")] }
      | some s => .ok s

/-- Exception raised by passlib when a hash string cannot be identified as
any configured scheme (passlib.exc.UnknownHashError, a ValueError). -/
inductive PasslibError where
  | unknownHash (msg : String)
  deriving DecidableEq

/-- Number of password bytes bcrypt consumes: the passlib bcrypt handler has
truncate_size 72 and silently truncates longer passwords by default. -/
def BCRYPT_TRUNCATE_SIZE : Nat := 72

/-- UTF-8 bytes of the password actually consumed by bcrypt: the first 72. -/
def bcryptTruncate (s : String) : List UInt8 :=
  s.toUTF8.data.toList.take BCRYPT_TRUNCATE_SIZE

/-- Parsed form of a stored hash string under CryptContext with the single
scheme bcrypt: a well-formed bcrypt hash carries its random salt and the
derived key; any other string is unrecognized by the context. The bcrypt key
derivation is idealized as injective in the pair of truncated password and
salt: the derived key is represented by the truncated password bytes, which
verification recomputes from the candidate password and compares. -/
inductive HashString where
  | bcrypt (salt : Nat) (key : List UInt8)
  | unrecognized (raw : String)
  deriving DecidableEq

/-- Model of get_password_hash (backend/app/core/security.py lines 49-57):
CryptContext.hash draws a fresh random salt — passed explicitly here — and
returns a salted, algorithm-tagged bcrypt hash string. -/
def get_password_hash (salt : Nat) (password : String) : HashString :=
  .bcrypt salt (bcryptTruncate password)

/-- Model of verify_password (backend/app/core/security.py lines 60-68):
CryptContext.verify recomputes the derived key from the candidate password
and the salt embedded in a recognized hash string and compares; for a string
not recognized as any configured scheme it raises UnknownHashError instead of
returning a boolean. -/
def verify_password (plain : String) (hashed : HashString) :
    Except PasslibError Bool :=
  match hashed with
  | .unrecognized _ => .error (.unknownHash "hash could not be identified")
  | .bcrypt _ key => .ok (bcryptTruncate plain == key)

/-- Fields of the users table read on the authentication paths
(backend/app/db/models.py, class User). The created_at column and the roles
relationship are never read there and are omitted. -/
structure User where
  id : Nat
  role : String
  email : String
  full_name : Option String
  hashed_password : HashString
  is_active : Bool
  deriving DecidableEq

/-- Call expression create_access_token(subject=..., role=..., expires_delta=None)
exactly as written in login (backend/app/api/auth.py lines 93-97). The
definition of create_access_token (backend/app/core/security.py line 87)
declares only the parameters subject and expires_delta, so Python raises
TypeError for the unexpected keyword argument role before the function body
runs; no token is ever produced by this call. -/
def create_access_token_role_call (_subject _roleArg : String) :
    Except String JoseToken :=
  .error "create_access_token() got an unexpected keyword argument: role"

/-- Caller-visible outcome of the login route: a returned TokenResponse, a
raised HTTPException, or an uncaught Python exception — the TypeError from
the bad keyword argument, or a passlib error from a malformed stored hash. -/
inductive LoginOutcome where
  | ok (access_token : JoseToken) (token_type : String)
  | http (e : HTTPException)
  | typeError (msg : String)
  | passlibError (e : PasslibError)
  deriving DecidableEq

/-- Model of login (backend/app/api/auth.py lines 71-100): finds the first
user whose email equals form_data.username exactly (SQL string equality, no
case normalization anywhere on this path), raises the single generic 401
Invalid credentials both when the user is absent and when the password fails
verification, and on a verified password evaluates the create_access_token
call carrying the unexpected role keyword, whose TypeError escapes the route.
The settings and clock parameters are listed for comparison with the other
routes; this route consults neither before the TypeError. -/
def login (_S : Settings) (_now : Int) (db : List User)
    (username password : String) : LoginOutcome :=
  match db.find? (fun u => u.email == username) with
  | none =>
    .http { status_code := 401, detail := "Invalid credentials",
            headers := [("WWW-Authenticate", "Bearer")] }
  | some user =>
    match verify_password password user.hashed_password with
    | .error e => .passlibError e
    | .ok false =>
      .http { status_code := 401, detail := "Invalid credentials",
              headers := [("WWW-Authenticate", "Bearer")] }
    | .ok true =>
      match create_access_token_role_call user.email user.role with
      | .error msg => .typeError msg
      | .ok tok => .ok tok "bearer"

/-- Boolean test that a login outcome is a returned TokenResponse. -/
def issuesToken : LoginOutcome → Bool
  | .ok _ _ => true
  | _ => false

/-- Sample configuration used for the concrete evaluations below; the theorems
quantified over Settings show the choice of values is immaterial. -/
def sampleSettings : Settings :=
  { SECRET_KEY := "test-secret-key", ACCESS_TOKEN_EXPIRE_MINUTES := 30,
    JWT_ALGORITHM := "HS256", JWT_ISSUER := "real-estate-api",
    JWT_AUDIENCE := "real-estate-clients" }

/-- Sample stored user: email a@x.com, password pw123 hashed with salt 0,
role admin, active. -/
def sampleUser : User :=
  { id := 1, role := "admin", email := "a@x.com", full_name := none,
    hashed_password := get_password_hash 0 "pw123", is_active := true }

/-- Claim set signed below with the correct secret and algorithm but carrying
a foreign audience value; unexpired at time 0. -/
def wrongAudienceClaims : Claims :=
  { sub := some "a@x.com", role := none, iat := some 0, exp := some 3600,
    iss := some "real-estate-api", aud := some "other-service" }

/-- Structurally valid, correctly signed, unexpired token whose aud claim
differs from the configured audience of sampleSettings. -/
def wrongAudienceToken : JoseToken :=
  .signed wrongAudienceClaims "test-secret-key" "HS256"

/-- Claim set with a staff role and no sub claim, otherwise valid for
sampleSettings at time 0. -/
def staffNoSubClaims : Claims :=
  { sub := none, role := some "staff", iat := some 0, exp := some 3600,
    iss := some "real-estate-api", aud := some "real-estate-clients" }

/-- Correctly signed, unexpired token whose payload has a staff role and no
sub claim. -/
def staffNoSubToken : JoseToken :=
  .signed staffNoSubClaims "test-secret-key" "HS256"

/-- Correctly signed admin token with subject b@x.com whose exp claim lies at
time 60, hence expired at any later instant. -/
def expiredAdminToken : JoseToken :=
  .signed
    { sub := some "b@x.com", role := some "admin", iat := some 0,
      exp := some 60, iss := some "real-estate-api",
      aud := some "real-estate-clients" }
    "test-secret-key" "HS256"

/-- Claim set of a valid admin token for sampleSettings, unexpired at time 0. -/
def adminClaims : Claims :=
  { sub := some "b@x.com", role := some "admin", iat := some 0,
    exp := some 3600, iss := some "real-estate-api",
    aud := some "real-estate-clients" }

/-- Correctly signed, unexpired admin token with subject b@x.com. -/
def adminToken : JoseToken :=
  .signed adminClaims "test-secret-key" "HS256"

/-- String consisting of n copies of the letter a; used to exhibit the bcrypt
truncation boundary at 72 bytes. -/
def aRepeat (n : Nat) : String := String.mk (List.replicate n 'a')

/-- Stored user whose hashed_password column holds a string that no configured
passlib scheme recognizes. -/
def corruptHashUser : User :=
  { id := 2, role := "staff", email := "c@x.com", full_name := none,
    hashed_password := .unrecognized "not-a-bcrypt-hash", is_active := true }

/-- Claim C1 (code_bug): evaluation of the code at the failing input. For the
stored user a@x.com with the correct password pw123, the password verifies,
yet login ends in the uncaught TypeError raised by the create_access_token
call with the unexpected role keyword; no token string is returned and the
success path does not complete without raising. -/
theorem login_success_path_raises_type_error :
    verify_password "pw123" sampleUser.hashed_password = .ok true ∧
    login sampleSettings 0 [sampleUser] "a@x.com" "pw123"
      = .typeError "create_access_token() got an unexpected keyword argument: role" := by
  exact ⟨by decide, by decide⟩

/-- Claim C2 (code_bug): evaluation of the code at the failing input. The
encode call with a role argument, as login performs it, raises TypeError; and
the token built by create_access_token for subject a@x.com decodes within its
validity window to claims whose sub equals the subject but whose role key is
absent (role = none), so no role value can round-trip. -/
theorem token_roundtrip_keeps_sub_but_has_no_role_claim :
    create_access_token_role_call "a@x.com" "admin"
      = .error "create_access_token() got an unexpected keyword argument: role" ∧
    verify_access_token sampleSettings 60
        (create_access_token sampleSettings 0 "a@x.com" none)
      = .ok { sub := some "a@x.com", role := none, iat := some 0,
              exp := some 1800, iss := some "real-estate-api",
              aud := some "real-estate-clients" } := by
  exact ⟨by decide, by decide⟩

/-- Claim C3, counterexample: a correctly signed, unexpired token with a staff
role and no sub claim makes the Identity Resolver (get_current_user) fail with
the 401 missing-subject failure, yet require_admin answers 403 FORBIDDEN — so
FORBIDDEN does not occur exactly when resolution fully succeeds with a wrong
role, and the resolution failure is not propagated unchanged. Moreover, on an
expired token the resolver produces its 401 HTTPException while require_admin
lets the raw ExpiredSignatureError escape uncaught, a different caller-visible
failure. -/
theorem require_admin_forbidden_despite_resolver_failure :
    get_current_user sampleSettings 0 staffNoSubToken
      = .error { status_code := 401, detail := "Token missing subject claim",
                 headers := [("WWW-Authenticate", "Bearer")] } ∧
    require_admin sampleSettings 0 staffNoSubToken
      = .http { status_code := 403, detail := "Admin privileges required",
                headers := [] } ∧
    get_current_user sampleSettings 7200 expiredAdminToken
      = .error { status_code := 401, detail := "Token has expired",
                 headers := [("WWW-Authenticate", "Bearer")] } ∧
    require_admin sampleSettings 7200 expiredAdminToken
      = .uncaught (.expired "Token has expired") := by
  exact ⟨by decide, by decide, by decide, by decide⟩

/-- Claim C5, counterexample: a structurally valid, unexpired token signed
with the correct secret but a foreign aud value is rejected by the jose layer
as a distinct JWTClaimsError, yet verify_access_token re-raises it as the
same generic JWTError, with the same message, that a malformed token
produces — the audience-mismatch kind is not distinct from the malformed kind
at the caller. -/
theorem audience_mismatch_conflated_with_malformed :
    joseDecode wrongAudienceToken "test-secret-key" ["HS256"]
        "real-estate-clients" "real-estate-api" 0
      = .error (.claimsError "Invalid audience") ∧
    verify_access_token sampleSettings 0 wrongAudienceToken
      = .error (.invalid "Token is invalid or corrupted") ∧
    verify_access_token sampleSettings 0
        (.malformed "this.is.not.a.valid.token")
      = .error (.invalid "Token is invalid or corrupted") := by
  exact ⟨by decide, by decide, by decide⟩

/-- Claim C7, counterexample: the secrets of 73 and of 72 letters a are
distinct, yet the 73-letter secret verifies against the hash of the 72-letter
one, because bcrypt consumes only the first 72 password bytes. -/
theorem bcrypt_truncation_collision :
    aRepeat 73 ≠ aRepeat 72 ∧
    verify_password (aRepeat 73) (get_password_hash 0 (aRepeat 72))
      = .ok true := by
  exact ⟨by decide, by decide⟩

/-- Claim C8, counterexample: on a hash string that no configured scheme
recognizes, verify_password raises UnknownHashError instead of returning
false. -/
theorem verify_password_raises_on_malformed_hash :
    verify_password "pw123" (.unrecognized "not-a-hash")
      = .error (.unknownHash "hash could not be identified") ∧
    verify_password "pw123" (.unrecognized "not-a-hash") ≠ .ok false := by
  exact ⟨by decide, by decide⟩

/-- Claim C9, counterexample: with the user a@x.com stored, login with the
casing variant A@x.com and the correct password does not reach the stored
record and does not succeed: it is rejected with the generic 401 Invalid
credentials, because the lookup compares the supplied identifier verbatim. -/
theorem login_case_variant_rejected :
    login sampleSettings 0 [sampleUser] "A@x.com" "pw123"
      = .http { status_code := 401, detail := "Invalid credentials",
                headers := [("WWW-Authenticate", "Bearer")] } ∧
    issuesToken (login sampleSettings 0 [sampleUser] "A@x.com" "pw123")
      = false := by
  exact ⟨by decide, by decide⟩

/-- Claim C10, counterexample: the stored user is active and the supplied
password verifies, yet login issues no token — the route ends in the uncaught
TypeError of the role keyword argument, so the claim that login issues a
token whether is_active is true or false fails already for is_active true. -/
theorem login_active_user_issues_no_token :
    sampleUser.is_active = true ∧
    verify_password "pw123" sampleUser.hashed_password = .ok true ∧
    issuesToken (login sampleSettings 0 [sampleUser] "a@x.com" "pw123")
      = false := by
  exact ⟨by decide, by decide, by decide⟩

/-- Claim C4: the caller-visible failure for an unknown identifier is
identical to the failure for a known identifier with a non-verifying
password — the single generic 401 with detail Invalid credentials, same
status, same detail, same headers — so the two causes are indistinguishable
to the caller. -/
theorem login_failure_indistinguishable (S : Settings) (now now2 : Int)
    (db db2 : List User) (id pw id2 pw2 : String) (u : User)
    (h1 : db.find? (fun x => x.email == id) = none)
    (h2 : db2.find? (fun x => x.email == id2) = some u)
    (h3 : verify_password pw2 u.hashed_password = .ok false) :
    login S now db id pw = login S now2 db2 id2 pw2 ∧
    login S now db id pw
      = .http { status_code := 401, detail := "Invalid credentials",
                headers := [("WWW-Authenticate", "Bearer")] } := by
  have L1 : login S now db id pw
      = .http { status_code := 401, detail := "Invalid credentials",
                headers := [("WWW-Authenticate", "Bearer")] } := by
    simp [login, h1]
  have L2 : login S now2 db2 id2 pw2
      = .http { status_code := 401, detail := "Invalid credentials",
                headers := [("WWW-Authenticate", "Bearer")] } := by
    simp [login, h2, h3]
  exact ⟨L1.trans L2.symm, L1⟩

/-- Witness for claim C4 at concrete inputs: the empty store with an unknown
identifier on one side, the store holding sampleUser with the wrong password
on the other. -/
theorem login_failure_indistinguishable_witness :
    (([] : List User).find? (fun x => x.email == "ghost@x.com") = none ∧
     [sampleUser].find? (fun x => x.email == "a@x.com") = some sampleUser ∧
     verify_password "wrong" sampleUser.hashed_password = .ok false) ∧
    (login sampleSettings 0 [] "ghost@x.com" "anything"
       = login sampleSettings 0 [sampleUser] "a@x.com" "wrong" ∧
     login sampleSettings 0 [] "ghost@x.com" "anything"
       = .http { status_code := 401, detail := "Invalid credentials",
                 headers := [("WWW-Authenticate", "Bearer")] }) := by
  exact ⟨⟨by decide, by decide, by decide⟩,
    login_failure_indistinguishable sampleSettings 0 0 [] [sampleUser]
      "ghost@x.com" "anything" "a@x.com" "wrong" sampleUser
      (by decide) (by decide) (by decide)⟩

/-- Claim C6: a token created with any negative expires_delta has its exp in
the past, so decoding it at or after its issue instant fails with the
ExpiredSignatureError kind and message Token has expired — never success —
and that kind is distinct from the generic invalid kind used for malformed
tokens. -/
theorem negative_ttl_decode_fails_expired (S : Settings) (subject : String)
    (iat t d : Int) (hd : d < 0) (ht : iat ≤ t) :
    verify_access_token S t (create_access_token S iat subject (some d))
      = .error (.expired "Token has expired") ∧
    ∀ m, VerifyError.expired "Token has expired" ≠ VerifyError.invalid m := by
  constructor
  · have hlt : iat + d * 60 < t := by omega
    simp [create_access_token, verify_access_token, joseDecode, hlt]
  · intro m
    simp

/-- Witness for claim C6 at concrete inputs: the expires_delta of minus one
minute from the unit test, issued and decoded at time 0. -/
theorem negative_ttl_decode_fails_expired_witness :
    ((-1 : Int) < 0 ∧ (0 : Int) ≤ 0) ∧
    (verify_access_token sampleSettings 0
        (create_access_token sampleSettings 0 "expired_user" (some (-1)))
       = .error (.expired "Token has expired") ∧
     ∀ m, VerifyError.expired "Token has expired" ≠ VerifyError.invalid m) := by
  exact ⟨⟨by decide, by decide⟩,
    negative_ttl_decode_fails_expired sampleSettings "expired_user" 0 0 (-1)
      (by decide) (by decide)⟩

/-- Claim C3, amended: require_admin propagates a decode failure as the same
uncaught codec exception (not as the 401 HTTPException the Identity Resolver
would raise); whenever decoding succeeds and the role claim is not admin it
fails 403 FORBIDDEN, even when the subject is missing; and when the role claim
is admin it behaves exactly as the Identity Resolver get_current_user does,
returning the subject or failing 401 on a missing subject. -/
theorem require_admin_characterization (S : Settings) (now : Int)
    (t : JoseToken) :
    (∀ e, verify_access_token S now t = .error e →
      require_admin S now t = .uncaught e) ∧
    (∀ c, verify_access_token S now t = .ok c → c.role ≠ some "admin" →
      require_admin S now t
        = .http { status_code := 403, detail := "Admin privileges required",
                  headers := [] }) ∧
    (∀ c, verify_access_token S now t = .ok c → c.role = some "admin" →
      require_admin S now t
        = match get_current_user S now t with
          | .ok s => .ok s
          | .error h => .http h) := by
  refine ⟨?_, ?_, ?_⟩
  · intro e he
    simp [require_admin, he]
  · intro c hc hrole
    simp [require_admin, hc, hrole]
  · intro c hc hrole
    cases hsub : c.sub with
    | none => simp [require_admin, get_current_user, hc, hrole, hsub]
    | some s => simp [require_admin, get_current_user, hc, hrole, hsub]

/-- Witness for claim C3 at a concrete input: the decoded staff token without
a subject claim takes the FORBIDDEN branch. -/
theorem require_admin_characterization_witness :
    (verify_access_token sampleSettings 0 staffNoSubToken
       = .ok staffNoSubClaims ∧
     staffNoSubClaims.role ≠ some "admin") ∧
    require_admin sampleSettings 0 staffNoSubToken
      = .http { status_code := 403, detail := "Admin privileges required",
                headers := [] } := by
  exact ⟨⟨by decide, by decide⟩,
    (require_admin_characterization sampleSettings 0 staffNoSubToken).2.1
      staffNoSubClaims (by decide) (by decide)⟩

/-- Claim C5, amended: verify_access_token checks signature and structure
first, then expiry, then audience and issuer, but only expiry is reported as
a distinct kind; a malformed token, a wrong key or algorithm, and a
wrong-audience unexpired token all yield the one generic JWTError with the
message Token is invalid or corrupted, so the audience-mismatch failure is
not distinct from the malformed-token failure. Expiry is checked before the
audience claim is consulted, and the signature before the expiry claim. -/
theorem verify_access_token_failure_kinds (S : Settings) (now : Int) :
    (∀ raw, verify_access_token S now (.malformed raw)
        = .error (.invalid "Token is invalid or corrupted")) ∧
    (∀ c key alg, ¬ (alg = S.JWT_ALGORITHM ∧ key = S.SECRET_KEY) →
      verify_access_token S now (.signed c key alg)
        = .error (.invalid "Token is invalid or corrupted")) ∧
    (∀ c e, c.exp = some e → e < now →
      verify_access_token S now (.signed c S.SECRET_KEY S.JWT_ALGORITHM)
        = .error (.expired "Token has expired")) ∧
    (∀ c a, (∀ e, c.exp = some e → ¬ e < now) → c.aud = some a →
      a ≠ S.JWT_AUDIENCE →
      verify_access_token S now (.signed c S.SECRET_KEY S.JWT_ALGORITHM)
        = .error (.invalid "Token is invalid or corrupted")) := by
  refine ⟨?_, ?_, ?_, ?_⟩
  · intro raw
    rfl
  · intro c key alg h
    have h2 : ¬ (alg ∈ [S.JWT_ALGORITHM] ∧ key = S.SECRET_KEY) := by
      simpa using h
    simp only [verify_access_token, joseDecode]
    rw [if_pos h2]
  · intro c e he hlt
    simp [verify_access_token, joseDecode, he, hlt]
  · intro c a hnx ha hne
    cases hexp : c.exp with
    | none =>
      simp [verify_access_token, joseDecode, joseValidateAudIss, hexp, ha, hne]
    | some e =>
      have hok : ¬ e < now := hnx e hexp
      simp [verify_access_token, joseDecode, joseValidateAudIss, hexp, hok,
        ha, hne]

/-- Witness for claim C5 at a concrete input: the unexpired wrong-audience
claim set signed with the configured secret and algorithm. -/
theorem verify_access_token_failure_kinds_witness :
    ((∀ e, wrongAudienceClaims.exp = some e → ¬ e < (0 : Int)) ∧
     wrongAudienceClaims.aud = some "other-service" ∧
     "other-service" ≠ sampleSettings.JWT_AUDIENCE) ∧
    verify_access_token sampleSettings 0
        (.signed wrongAudienceClaims sampleSettings.SECRET_KEY
          sampleSettings.JWT_ALGORITHM)
      = .error (.invalid "Token is invalid or corrupted") := by
  have hexp : ∀ e, wrongAudienceClaims.exp = some e → ¬ e < (0 : Int) := by
    intro e he
    simp [wrongAudienceClaims] at he
    omega
  exact ⟨⟨hexp, by decide, by decide⟩,
    (verify_access_token_failure_kinds sampleSettings 0).2.2.2
      wrongAudienceClaims "other-service" hexp (by decide) (by decide)⟩

/-- Claim C7, amended: for every secret and salt, the secret verifies against
its own hash; hashing one secret under two distinct salts yields two distinct
hash strings, both of which verify; and verification of one secret against
the hash of another fails exactly when their first 72 UTF-8 bytes differ —
bcrypt truncates the password to 72 bytes, so distinct secrets agreeing on
those bytes verify against each other. -/
theorem password_hash_verify_properties (s s1 s2 : String)
    (salt salt1 salt2 : Nat) (hsalt : salt1 ≠ salt2)
    (htrunc : bcryptTruncate s1 ≠ bcryptTruncate s2) :
    verify_password s (get_password_hash salt s) = .ok true ∧
    (get_password_hash salt1 s ≠ get_password_hash salt2 s ∧
     verify_password s (get_password_hash salt1 s) = .ok true ∧
     verify_password s (get_password_hash salt2 s) = .ok true) ∧
    verify_password s1 (get_password_hash salt s2) = .ok false := by
  refine ⟨?_, ⟨?_, ?_, ?_⟩, ?_⟩
  · simp [verify_password, get_password_hash]
  · intro h
    simp [get_password_hash] at h
    exact hsalt h
  · simp [verify_password, get_password_hash]
  · simp [verify_password, get_password_hash]
  · simp [verify_password, get_password_hash, beq_eq_false_iff_ne]
    exact htrunc

/-- Witness for claim C7 at concrete inputs: the secret pw123 under salts 0,
1 and 5, and the pair alpha and beta whose truncations differ. -/
theorem password_hash_verify_properties_witness :
    ((0 : Nat) ≠ 1 ∧ bcryptTruncate "alpha" ≠ bcryptTruncate "beta") ∧
    (verify_password "pw123" (get_password_hash 5 "pw123") = .ok true ∧
     (get_password_hash 0 "pw123" ≠ get_password_hash 1 "pw123" ∧
      verify_password "pw123" (get_password_hash 0 "pw123") = .ok true ∧
      verify_password "pw123" (get_password_hash 1 "pw123") = .ok true) ∧
     verify_password "alpha" (get_password_hash 5 "beta") = .ok false) := by
  exact ⟨⟨by decide, by decide⟩,
    password_hash_verify_properties "pw123" "alpha" "beta" 5 0 1
      (by decide) (by decide)⟩

/-- Claim C8, amended: verify_password is total on recognized bcrypt hashes
but raises UnknownHashError on a hash string no configured scheme recognizes;
when such a hash is stored, the exception escapes the login route uncaught
instead of producing the generic Invalid credentials failure, so a bad stored
hash is distinguishable from an unknown user at the caller. -/
theorem malformed_stored_hash_error_escapes_login (S : Settings) (now : Int)
    (db : List User) (id pw raw : String) (u : User)
    (hfind : db.find? (fun x => x.email == id) = some u)
    (hhash : u.hashed_password = .unrecognized raw) :
    verify_password pw u.hashed_password
      = .error (.unknownHash "hash could not be identified") ∧
    login S now db id pw
      = .passlibError (.unknownHash "hash could not be identified") := by
  have hv : verify_password pw u.hashed_password
      = .error (.unknownHash "hash could not be identified") := by
    rw [hhash]
    rfl
  exact ⟨hv, by simp [login, hfind, hv]⟩

/-- Witness for claim C8 at a concrete input: the stored user c@x.com whose
hash column holds an unrecognizable string. -/
theorem malformed_stored_hash_error_escapes_login_witness :
    ([corruptHashUser].find? (fun x => x.email == "c@x.com")
       = some corruptHashUser ∧
     corruptHashUser.hashed_password = .unrecognized "not-a-bcrypt-hash") ∧
    (verify_password "pw123" corruptHashUser.hashed_password
       = .error (.unknownHash "hash could not be identified") ∧
     login sampleSettings 0 [corruptHashUser] "c@x.com" "pw123"
       = .passlibError (.unknownHash "hash could not be identified")) := by
  exact ⟨⟨by decide, by decide⟩,
    malformed_stored_hash_error_escapes_login sampleSettings 0
      [corruptHashUser] "c@x.com" "pw123" "not-a-bcrypt-hash" corruptHashUser
      (by decide) (by decide)⟩

/-- Claim C9, amended: the login lookup compares the supplied identifier to
the stored email with exact, case-sensitive string equality, so any
identifier that matches no stored email verbatim — including a casing variant
of a stored one — is treated as an unknown user and rejected with the generic
401 Invalid credentials. -/
theorem login_unknown_identifier_rejected (S : Settings) (now : Int)
    (db : List User) (id pw : String) (h : ∀ u ∈ db, u.email ≠ id) :
    login S now db id pw
      = .http { status_code := 401, detail := "Invalid credentials",
                headers := [("WWW-Authenticate", "Bearer")] } := by
  have hf : db.find? (fun u => u.email == id) = none := by
    rw [List.find?_eq_none]
    intro u hu
    simpa using h u hu
  simp [login, hf]

/-- Witness for claim C9 at a concrete input: the store holds a@x.com and the
supplied identifier is the casing variant A@x.com. -/
theorem login_unknown_identifier_rejected_witness :
    (∀ u ∈ [sampleUser], u.email ≠ "A@x.com") ∧
    login sampleSettings 0 [sampleUser] "A@x.com" "pw123"
      = .http { status_code := 401, detail := "Invalid credentials",
                headers := [("WWW-Authenticate", "Bearer")] } := by
  have h : ∀ u ∈ [sampleUser], u.email ≠ "A@x.com" := by
    intro u hu
    simp only [List.mem_singleton] at hu
    subst hu
    decide
  exact ⟨h, login_unknown_identifier_rejected sampleSettings 0 [sampleUser]
    "A@x.com" "pw123" h⟩

/-- Helper: the login lookup predicate reads only the email column, so the
lookup commutes with overwriting the is_active column of every record. -/
theorem find_user_map_is_active (db : List User) (id : String) (b : Bool) :
    (db.map (fun u => { u with is_active := b })).find?
        (fun u => u.email == id)
      = (db.find? (fun u => u.email == id)).map
          (fun u => { u with is_active := b }) := by
  induction db with
  | nil => rfl
  | cons u rest ih =>
    by_cases h : u.email = id
    · simp [List.find?_cons, h]
    · simp [List.find?_cons, h, ih]

/-- Claim C10, amended: the outcome of login is fully independent of the
is_active flag — overwriting the flag of every stored record with either
boolean leaves the outcome unchanged, since no operation on the login path
reads is_active — and for a stored user whose password verifies, the outcome
is the uncaught TypeError of the role keyword argument rather than an issued
token, whatever the flag. -/
theorem login_independent_of_is_active (S : Settings) (now : Int)
    (db : List User) (id pw : String) (b : Bool) :
    login S now (db.map (fun u => { u with is_active := b })) id pw
      = login S now db id pw ∧
    (∀ u, db.find? (fun x => x.email == id) = some u →
      verify_password pw u.hashed_password = .ok true →
      login S now db id pw
        = .typeError
            "create_access_token() got an unexpected keyword argument: role") := by
  constructor
  · unfold login
    rw [find_user_map_is_active]
    cases db.find? (fun u => u.email == id) with
    | none => rfl
    | some u => rfl
  · intro u hu hv
    simp [login, hu, hv, create_access_token_role_call]

/-- Witness for claim C10 at a concrete input: the store holding sampleUser,
whose flag is overwritten with false, and the correct password pw123. -/
theorem login_independent_of_is_active_witness :
    ([sampleUser].find? (fun x => x.email == "a@x.com") = some sampleUser ∧
     verify_password "pw123" sampleUser.hashed_password = .ok true) ∧
    (login sampleSettings 0
        ([sampleUser].map (fun u => { u with is_active := false }))
        "a@x.com" "pw123"
       = login sampleSettings 0 [sampleUser] "a@x.com" "pw123" ∧
     login sampleSettings 0 [sampleUser] "a@x.com" "pw123"
       = .typeError
           "create_access_token() got an unexpected keyword argument: role") := by
  refine ⟨⟨by decide, by decide⟩, ?_, ?_⟩
  · exact (login_independent_of_is_active sampleSettings 0 [sampleUser]
      "a@x.com" "pw123" false).1
  · exact (login_independent_of_is_active sampleSettings 0 [sampleUser]
      "a@x.com" "pw123" false).2 sampleUser (by decide) (by decide)
